import Mathlib

/-!
Verification development for the arc-agent repository.

Shallow embedding of:
  * src/arc/brain/memory.py   (MemoryManager: episodic log, profile, decay)
  * src/arc/brain/graph.py    (turn-processing state machine and its nodes)
  * src/arc/mcp/filesystem.py (FilesystemMCP: path validation and file ops)

Modelling conventions:
  * timestamps are whole seconds (Nat); Python's timedelta.days is the
    floored quotient by 86400;
  * Python float confidences are rationals (0.5 is exact in both);
  * dictionary .get defaults are mirrored with Option and getD;
  * Python truthiness of optional strings (None and "" falsy) is truthyStr;
  * the language-model backend, os.listdir and the clock are inputs (Env);
  * JSON null values for typed decision fields are not modelled (in the
    source they would raise at routing, outside every claim's scenario).
-/

namespace Arc

/-! ## Memory model: src/arc/brain/memory.py -/

abbrev Timestamp := Nat

def secondsPerDay : Nat := 86400

structure Fact where
  text : String
  last_used : Timestamp
  strength : Nat
deriving DecidableEq, Repr

structure EpisodicEntry where
  timestamp : Timestamp
  intent : String
  tool : String
  args : List (String × String)
  outcome : String
  result_summary : String
deriving DecidableEq, Repr

/-- Python s[:n] on a string: the first n code points. -/
def pyTake (n : Nat) (s : String) : String := ⟨s.data.take n⟩

/-- Source MemoryManager.log_episodic: build one entry, truncating
result_summary to 200 characters, and append it to the stored list
(the source reads the whole list, appends, rewrites). -/
def log_episodic (now : Timestamp) (intent tool : String)
    (args : List (String × String)) (outcome result_summary : String)
    (data : List EpisodicEntry) : List EpisodicEntry :=
  data ++ [⟨now, intent, tool, args, outcome, pyTake 200 result_summary⟩]

/-- Whole days since last_used, as Python timedelta.days computes it
(floored; a future last_used clamps to 0 here, and in the source gives a
negative number — both fail the > 30 test, so the branch agrees). -/
def days_inactive (now last_used : Timestamp) : Nat :=
  (now - last_used) / secondsPerDay

/-- Source MemoryManager._apply_decay: drop every fact not used for more
than 30 whole days (the source collects the decayed indices and pops them
in reverse, which is exactly list filtering). -/
def apply_decay (now : Timestamp) (facts : List Fact) : List Fact :=
  facts.filter (fun f => !(days_inactive now f.last_used > 30))

/-- Python str.lower for one character, restricted to ASCII (all profile
data in the claims is ASCII). -/
def lowerChar (c : Char) : Char :=
  if 65 ≤ c.toNat ∧ c.toNat ≤ 90 then Char.ofNat (c.toNat + 32) else c

/-- Python str.lower, restricted to ASCII input. -/
def pyLower (s : String) : String := ⟨s.data.map lowerChar⟩

/-- Inner update/add loop of MemoryManager.update_profile for one new
fact: refresh last_used and strengthen (cap 5) the first case-insensitive
match, else append a fresh fact of strength 1. -/
def insertFact (now : Timestamp) (new_f : String) : List Fact → List Fact
  | [] => [⟨new_f, now, 1⟩]
  | f :: rest =>
    if pyLower f.text = pyLower new_f then
      ⟨f.text, now, min (f.strength + 1) 5⟩ :: rest
    else
      f :: insertFact now new_f rest

/-- Source MemoryManager.update_profile on the structured (post-migration)
fact list: no-op on empty input, insert each new fact in order, then run
lazy decay, then write the whole profile back. -/
def update_profile (now : Timestamp) (new_facts : List String)
    (facts : List Fact) : List Fact :=
  if new_facts.isEmpty then facts
  else apply_decay now (new_facts.foldl (fun acc nf => insertFact now nf acc) facts)

/-- Source MemoryManager.get_profile: fact texts only. -/
def get_profile (facts : List Fact) : List String := facts.map (·.text)

/-- Python l[-k:] for k ≥ 0. Note -0 = 0, so k = 0 slices from index 0
and yields the whole list. -/
def pySliceLast {α : Type} (l : List α) (k : Nat) : List α :=
  if k = 0 then l else l.drop (l.length - k)

/-- Source MemoryManager.get_recent_episodic: data[-limit:] if data else [].
A pure read — the stored list is not modified. -/
def get_recent_episodic (data : List EpisodicEntry) (limit : Nat) : List EpisodicEntry :=
  if data.isEmpty then [] else pySliceLast data limit

/-- Source MemoryManager.delete_last_episodic: drop the last entry if any. -/
def delete_last_episodic (data : List EpisodicEntry) : List EpisodicEntry :=
  data.dropLast

/-! ## Turn state machine: src/arc/brain/graph.py -/

/-- Python truthiness of an optional string: None and "" are falsy. -/
def truthyStr : Option String → Bool
  | none => false
  | some s => !s.isEmpty

/-- Python x or y over an optional string: the operand if truthy, else
the fallback. -/
def pyOrStr (o : Option String) (d : String) : String :=
  match o with
  | some s => if s.isEmpty then d else s
  | none => d

structure MemoryDecision where
  episodic : Bool
  long_term : Bool
  summary : Option String
  user_fact : List String
deriving DecidableEq

structure ToolCommand where
  name : Option String
  args : List (String × String)
deriving DecidableEq

/-- The JSON object parsed from the reasoning backend's reply. A none
field is one the backend omitted (dict.get then supplies the default). -/
structure Decision where
  intent : Option String
  justification : Option String
  confidence : Option ℚ
  tool_command : Option ToolCommand
  needs_memory : Option Bool
  final_response : Option String
  mem_episodic : Option Bool
  mem_long_term : Option Bool
  mem_user_fact : Option (List String)
deriving DecidableEq

/-- The AgentState TypedDict. A none field is an absent (or None-valued)
key; every node returns a partial update merged over the previous state. -/
structure AgentState where
  input_text : String
  intent : Option String
  justification : Option String
  confidence : Option ℚ
  tool_command : Option ToolCommand
  needs_memory : Option Bool
  failure_reason : Option String
  recovery_attempt : Option Bool
  memory_decision : Option MemoryDecision
  memory_context : Option String
  tool_result : Option String
  final_response : Option String
deriving DecidableEq

/-- The state the graph is invoked with: only input_text populated. -/
def initState (input : String) : AgentState :=
  ⟨input, none, none, none, none, none, none, none, none, none, none, none⟩

/-- On-disk memory as seen by one turn. -/
structure MemoryStore where
  episodic : List EpisodicEntry
  facts : List Fact
deriving DecidableEq

/-- The turn's external collaborators: the backend call plus JSON parse of
the reasoning node (Except.error is its except branch), the reply text the
chat and recovery nodes end up with (backend content or their fixed local
fallback — both branches of each node return some string), os.listdir for
the list_files tool, and the clock. -/
structure Env where
  reasoning_outcome : Except String Decision
  chat_text : String
  recovery_text : String
  listdir : Except String (List String)
  now : Timestamp

/-- Source reasoning_engine: on parse success, the decision's fields with
their dict.get defaults, recovery_attempt := false, failure_reason := None;
on any error, a partial update of intent/confidence/failure_reason only. -/
def reasoning_engine (outcome : Except String Decision) (s : AgentState) : AgentState :=
  match outcome with
  | .ok d =>
    { s with
      intent := some (d.intent.getD "unknown"),
      justification := some (d.justification.getD "No justification"),
      confidence := some (d.confidence.getD 0),
      tool_command := d.tool_command,
      needs_memory := some (d.needs_memory.getD false),
      final_response := d.final_response,
      memory_decision := some ⟨d.mem_episodic.getD false, d.mem_long_term.getD false,
                               none, d.mem_user_fact.getD []⟩,
      recovery_attempt := some false,
      failure_reason := none,
      memory_context := none }
  | .error e =>
    { s with
      intent := some "unknown",
      confidence := some 0,
      failure_reason := some ("Reasoning Engine crashed: " ++ e) }

/-- Source context_loader: assemble the digest from the profile and the
last 3 episodic entries (timestamps rendered numerically here), or the
fixed sentinel when both are empty. Its exception branch also just sets
memory_context to a fixed string. -/
def context_loader (m : MemoryStore) (s : AgentState) : AgentState :=
  let facts := get_profile m.facts
  let profilePart : List String :=
    if facts.isEmpty then []
    else ["USER PROFILE:\n" ++ String.intercalate "\n" (facts.map (fun f => "- " ++ f))]
  let history := get_recent_episodic m.episodic 3
  let historyPart : List String :=
    if history.isEmpty then []
    else ["RECENT ACTIVITY:\n" ++ String.intercalate "\n"
      (history.map (fun h => "- " ++ toString h.timestamp ++ ": " ++ h.tool ++ " (" ++ h.outcome ++ ")"))]
  let parts := profilePart ++ historyPart
  let final_context := if parts.isEmpty then "No relevant memory found."
    else String.intercalate "\n\n" parts
  { s with memory_context := some final_context }

/-- Source chat_responder: both its branches return a final_response
string (backend content, or the fixed apologetic fallback). -/
def chat_responder (env : Env) (s : AgentState) : AgentState :=
  { s with final_response := some env.chat_text }

/-- Source recovery_engine: both its branches return a final_response
string and recovery_attempt := true; failure_reason is left as is. -/
def recovery_engine (env : Env) (s : AgentState) : AgentState :=
  { s with final_response := some env.recovery_text, recovery_attempt := some true }

/-- Source tool_gateway: dispatch on the command name; unknown names raise
ValueError which the node's except branch turns into failure_reason.
(A tool_command that is an empty dict — falsy like None — is not
distinguished from an absent one here; no claim depends on it.) -/
def tool_gateway (env : Env) (s : AgentState) : AgentState :=
  match s.tool_command with
  | none => { s with failure_reason := some "No tool command specified." }
  | some cmd =>
    if cmd.name = some "list_apps" then
      { s with tool_result := some "Apps: Code, Chrome, Terminal (Mock)" }
    else if cmd.name = some "list_files" then
      match env.listdir with
      | .ok files =>
        { s with tool_result := some ("Files: " ++ String.intercalate ", " (files.take 5)) }
      | .error e => { s with failure_reason := some e }
    else
      { s with failure_reason := some ("Tool \x27" ++ cmd.name.getD "None" ++ "\x27 not found.") }

/-- state.get("tool_command", \x7b\x7d).get("name", "unknown"). -/
def cmdName (c : Option ToolCommand) : String :=
  match c with
  | some cmd => cmd.name.getD "unknown"
  | none => "unknown"

/-- state.get("tool_command", \x7b\x7d).get("args", \x7b\x7d). -/
def cmdArgs (c : Option ToolCommand) : List (String × String) :=
  match c with
  | some cmd => cmd.args
  | none => []

/-- Source memory_processor: update the profile when the decision flags
long_term with a truthy fact list; when intent == "tool", log exactly one
episodic entry whose outcome and summary follow Python truthiness of
failure_reason / tool_result. Returns no state update. -/
def memory_processor (now : Timestamp) (s : AgentState) (m : MemoryStore) : MemoryStore :=
  let dec_long_term := match s.memory_decision with
    | some d => d.long_term
    | none => false
  let dec_user_fact := match s.memory_decision with
    | some d => d.user_fact
    | none => []
  let m1 := if dec_long_term && !dec_user_fact.isEmpty then
      { m with facts := update_profile now dec_user_fact m.facts }
    else m
  if s.intent = some "tool" then
    let outcome := if truthyStr s.failure_reason then "failure" else "success"
    let result := pyOrStr s.failure_reason (pyOrStr s.tool_result "No result")
    let newEpisodic := log_episodic now "tool" (cmdName s.tool_command)
      (cmdArgs s.tool_command) outcome result m1.episodic
    { m1 with episodic := newEpisodic }
  else m1

/-- The literal 0.5 of route_reasoning (exact in binary floating point,
exact as a rational; written with mkRat so the kernel can evaluate it). -/
def confidenceThreshold : ℚ := mkRat 1 2

/-- Source route_reasoning (conditional edges after reasoning). -/
def route_reasoning (s : AgentState) : String :=
  if s.confidence.getD 0 < confidenceThreshold then "recovery"
  else if s.intent = some "tool" then "tools"
  else if s.needs_memory.getD false then "context_loader"
  else "memory"

/-- Source route_tools (conditional edges after the tool gateway). -/
def route_tools (s : AgentState) : String :=
  if truthyStr s.failure_reason then "recovery" else "memory"

/-- One whole turn of the compiled graph of create_graph: reasoning, the
routed path, then memory, then end. Returns the state handed to the memory
node (memory_processor writes only to the store), the store after the
turn, and the list of executed node names in order. -/
def runTurn (env : Env) (input : String) (m : MemoryStore) :
    AgentState × MemoryStore × List String :=
  let s1 := reasoning_engine env.reasoning_outcome (initState input)
  let r := route_reasoning s1
  if r = "recovery" then
    let s2 := recovery_engine env s1
    (s2, memory_processor env.now s2 m, ["reasoning", "recovery", "memory"])
  else if r = "tools" then
    let s2 := tool_gateway env s1
    if route_tools s2 = "recovery" then
      let s3 := recovery_engine env s2
      (s3, memory_processor env.now s3 m, ["reasoning", "tools", "recovery", "memory"])
    else
      (s2, memory_processor env.now s2 m, ["reasoning", "tools", "memory"])
  else if r = "context_loader" then
    let s3 := chat_responder env (context_loader m s1)
    (s3, memory_processor env.now s3 m, ["reasoning", "context_loader", "chat_responder", "memory"])
  else
    (s1, memory_processor env.now s1 m, ["reasoning", "memory"])

/-! ## Filesystem tool provider: src/arc/mcp/filesystem.py

Paths are lists of components from the filesystem root. Path(p).resolve()
is modelled lexically (".." pops a component, staying at the root when
already there); symlinks and "." components are outside the model. Each
operation returns its result dictionary, the filesystem after the call,
and the trace of file I/O it performed on the target path. -/

/-- One component of a raw (unresolved) path string: ".." or a name. -/
inductive PathComp where
  | up : PathComp
  | down : String → PathComp
deriving DecidableEq

/-- A raw path string: absolute or relative, with its components. -/
structure RawPath where
  absolute : Bool
  comps : List PathComp
deriving DecidableEq

/-- Path(path_str).resolve(): relative paths resolve against the process
working directory; ".." at the root stays at the root. -/
def resolveFrom (cwd : List String) (p : RawPath) : List String :=
  p.comps.foldl
    (fun acc c =>
      match c with
      | .up => acc.dropLast
      | .down s => acc ++ [s])
    (if p.absolute then [] else cwd)

/-- root in target.parents or root == target: root is a prefix of the
resolved component list. -/
def leadsTo : List String → List String → Bool
  | [], _ => true
  | _ :: _, [] => false
  | a :: as, b :: bs => a = b && leadsTo as bs

/-- The provider: its configured allow-list of resolved roots and the
process working directory used to resolve relative arguments. -/
structure FilesystemMCP where
  allowed_roots : List (List String)
  cwd : List String

/-- Source FilesystemMCP._validate_path: resolve, then accept only when
some allowed root contains (or equals) the target. -/
def validate_path (m : FilesystemMCP) (p : RawPath) : Option (List String) :=
  let target := resolveFrom m.cwd p
  if m.allowed_roots.any (fun r => leadsTo r target) then some target else none

/-- The result dictionary every filesystem tool returns. -/
structure FSResult where
  status : String
  error : Option String
  data : Option String
deriving DecidableEq

/-- Files (path, contents) and directories visible to the provider. -/
structure FS where
  files : List (List String × String)
  dirs : List (List String)
deriving DecidableEq

/-- One file I/O operation actually performed on a path. -/
inductive IOOp where
  | readOp : List String → IOOp
  | writeOp : List String → String → IOOp
  | deleteOp : List String → IOOp
  | listOp : List String → IOOp
deriving DecidableEq

def fsIsFile (fs : FS) (p : List String) : Bool := fs.files.any (fun e => e.1 = p)

def fsIsDir (fs : FS) (p : List String) : Bool := fs.dirs.any (fun d => d = p)

def fsExists (fs : FS) (p : List String) : Bool := fsIsFile fs p || fsIsDir fs p

def fsContent (fs : FS) (p : List String) : Option String :=
  (fs.files.find? (fun e => e.1 = p)).map (fun e => e.2)

/-- target.write_text: replace or create the file (parent-directory OS
errors are outside the model). -/
def fsWrite (fs : FS) (p : List String) (c : String) : FS :=
  { fs with files := fs.files.filter (fun e => ¬ e.1 = p) ++ [(p, c)] }

def fsRemove (fs : FS) (p : List String) : FS :=
  { fs with files := fs.files.filter (fun e => ¬ e.1 = p) }

/-- Path(p).name: the last component. -/
def pathName (p : List String) : String := p.getLast?.getD ""

/-- Source FilesystemMCP.read_file. -/
def read_file (m : FilesystemMCP) (fs : FS) (p : RawPath) :
    FSResult × FS × List IOOp :=
  match validate_path m p with
  | none => (⟨"error", some "Access denied.", none⟩, fs, [])
  | some t =>
    if !fsExists fs t || !fsIsFile fs t then
      (⟨"error", some "File not found.", none⟩, fs, [])
    else
      (⟨"success", none, some ((fsContent fs t).getD "")⟩, fs, [.readOp t])

/-- Source FilesystemMCP.write_file. -/
def write_file (m : FilesystemMCP) (fs : FS) (p : RawPath) (content : String) :
    FSResult × FS × List IOOp :=
  match validate_path m p with
  | none => (⟨"error", some "Access denied.", none⟩, fs, [])
  | some t =>
    (⟨"success", none,
      some ("Written " ++ toString content.length ++ " chars to " ++ pathName t)⟩,
     fsWrite fs t content, [.writeOp t content])

/-- Source FilesystemMCP.create_file: write_file with empty content. -/
def create_file (m : FilesystemMCP) (fs : FS) (p : RawPath) :
    FSResult × FS × List IOOp :=
  write_file m fs p ""

/-- Source FilesystemMCP.delete_file (os.remove on a directory raises; the
except branch reports it, after the attempted operation). -/
def delete_file (m : FilesystemMCP) (fs : FS) (p : RawPath) :
    FSResult × FS × List IOOp :=
  match validate_path m p with
  | none => (⟨"error", some "Access denied.", none⟩, fs, [])
  | some t =>
    if !fsExists fs t then
      (⟨"error", some "File not found.", none⟩, fs, [])
    else if fsIsFile fs t then
      (⟨"success", none, some ("Deleted " ++ pathName t)⟩, fsRemove fs t, [.deleteOp t])
    else
      (⟨"error", some "Is a directory.", none⟩, fs, [.deleteOp t])

/-- Children of a directory, rendered as the source does ("[DIR] name" or
"[FILE] name"); iteration order is unspecified in the source, fixed here
as directories before files. -/
def fsListing (fs : FS) (t : List String) : String :=
  let dirItems := (fs.dirs.filter (fun d => d.dropLast = t ∧ ¬ d = t)).map
    (fun d => "[DIR] " ++ pathName d)
  let fileItems := (fs.files.filter (fun e => e.1.dropLast = t)).map
    (fun e => "[FILE] " ++ pathName e.1)
  String.intercalate "\n" (dirItems ++ fileItems)

/-- Source FilesystemMCP.list_directory. -/
def list_directory (m : FilesystemMCP) (fs : FS) (p : RawPath) :
    FSResult × FS × List IOOp :=
  match validate_path m p with
  | none => (⟨"error", some "Access denied: Path outside allowed roots.", none⟩, fs, [])
  | some t =>
    if !fsExists fs t || !fsIsDir fs t then
      (⟨"error", some "Directory not found.", none⟩, fs, [])
    else
      (⟨"success", none, some (fsListing fs t)⟩, fs, [.listOp t])

/-- Arguments of one filesystem tool call; an absent path argument
defaults to "." or "" in the source, both of which resolve to the
working directory (the empty relative path here). -/
structure FSArgs where
  path : Option RawPath
  content : Option String

/-- Source FilesystemMCP.execute: the dispatcher over tool names. -/
def fsExecute (m : FilesystemMCP) (fs : FS) (tool_name : String) (args : FSArgs) :
    FSResult × FS × List IOOp :=
  let p := args.path.getD ⟨false, []⟩
  if tool_name = "list_directory" || tool_name = "list_files" then
    list_directory m fs p
  else if tool_name = "read_file" then
    read_file m fs p
  else if tool_name = "write_file" then
    write_file m fs p (args.content.getD "")
  else if tool_name = "create_file" then
    create_file m fs p
  else if tool_name = "delete_file" then
    delete_file m fs p
  else
    (⟨"error", some ("Unknown tool: " ++ tool_name), none⟩, fs, [])

/-! ## Concrete fixtures used by witnesses and counterexamples -/

def emptyStore : MemoryStore := ⟨[], []⟩

def dLowTool : Decision :=
  ⟨some "tool", some "user asked to run a tool", some (mkRat 3 10),
   some ⟨some "list_apps", []⟩, some false, some "draft", some false, some false, some []⟩

def envLowTool : Env :=
  ⟨.ok dLowTool, "chat reply", "Could you clarify?", .ok ["a.txt"], 1000⟩

def envCrash : Env :=
  ⟨.error "connection refused", "chat reply", "Something went wrong.", .ok [], 1000⟩

def dOkTool : Decision :=
  ⟨some "tool", some "tool call", some (mkRat 9 10),
   some ⟨some "list_apps", []⟩, some false, none, some false, some false, some []⟩

def envOkTool : Env := ⟨.ok dOkTool, "chat reply", "recovery reply", .ok [], 1000⟩

def dBadTool : Decision :=
  ⟨some "tool", some "tool call", some (mkRat 9 10),
   some ⟨some "frobnicate", []⟩, some false, none, some false, some false, some []⟩

def envBadTool : Env := ⟨.ok dBadTool, "chat reply", "recovery reply", .ok [], 1000⟩

def dEmpty : Decision := ⟨none, none, none, none, none, none, none, none, none⟩

def entryW : EpisodicEntry := ⟨0, "tool", "list_apps", [], "success", "ok"⟩

def oldFact : Fact := ⟨"likes trains", 0, 3⟩

def mcpW : FilesystemMCP := ⟨[["home", "arc"]], ["home", "arc"]⟩

def etcPasswd : RawPath := ⟨false, [.up, .up, .down "etc", .down "passwd"]⟩

def fsW : FS := ⟨[(["etc", "passwd"], "root:x:0:0")], [["etc"], ["home"]]⟩

/-! ## Helper lemmas -/

/-- insertFact never drops a fact whose lowercased text differs from the
inserted one. -/
theorem insertFact_mem (now : Timestamp) (nf : String) (f : Fact)
    (hne : ¬ pyLower nf = pyLower f.text) :
    ∀ l : List Fact, f ∈ l → f ∈ insertFact now nf l := by
  intro l
  induction l with
  | nil => intro h; exact absurd h (List.not_mem_nil f)
  | cons g rest ih =>
    intro hmem
    unfold insertFact
    by_cases hg : pyLower g.text = pyLower nf
    · rw [if_pos hg]
      rcases List.mem_cons.mp hmem with h | h
      · exact absurd (h ▸ hg).symm hne
      · exact List.mem_cons_of_mem _ h
    · rw [if_neg hg]
      rcases List.mem_cons.mp hmem with h | h
      · exact h ▸ List.mem_cons_self _ _
      · exact List.mem_cons_of_mem _ (ih h)

/-- Folding insertFact over new facts that all differ (lowercased) from f
keeps f in the list. -/
theorem foldl_insertFact_mem (now : Timestamp) (f : Fact) :
    ∀ (nfs : List String) (l : List Fact), f ∈ l →
      (∀ nf ∈ nfs, ¬ pyLower nf = pyLower f.text) →
      f ∈ nfs.foldl (fun acc nf => insertFact now nf acc) l := by
  intro nfs
  induction nfs with
  | nil => intro l h _; exact h
  | cons nf rest ih =>
    intro l h hall
    simp only [List.foldl_cons]
    exact ih _ (insertFact_mem now nf f (hall nf (List.mem_cons_self _ _)) l h)
      (fun x hx => hall x (List.mem_cons_of_mem _ hx))

/-! ## Graph helper lemmas -/

theorem route_reasoning_error (e : String) (s : AgentState) :
    route_reasoning (reasoning_engine (.error e) s) = "recovery" := by
  have h0 : (0 : ℚ) < confidenceThreshold := by decide
  simp [reasoning_engine, route_reasoning, h0]

theorem route_reasoning_ok (d : Decision) (s : AgentState) :
    route_reasoning (reasoning_engine (.ok d) s) =
      if d.confidence.getD 0 < confidenceThreshold then "recovery"
      else if d.intent.getD "unknown" = "tool" then "tools"
      else if d.needs_memory.getD false then "context_loader"
      else "memory" := by
  simp [reasoning_engine, route_reasoning]

theorem runTurn_recovery (env : Env) (input : String) (m : MemoryStore)
    (h : route_reasoning (reasoning_engine env.reasoning_outcome (initState input)) =
      "recovery") :
    runTurn env input m =
      (recovery_engine env (reasoning_engine env.reasoning_outcome (initState input)),
       memory_processor env.now
         (recovery_engine env (reasoning_engine env.reasoning_outcome (initState input))) m,
       ["reasoning", "recovery", "memory"]) := by
  simp [runTurn, h]

theorem runTurn_tools_to_memory (env : Env) (input : String) (m : MemoryStore)
    (h1 : route_reasoning (reasoning_engine env.reasoning_outcome (initState input)) = "tools")
    (h2 : route_tools
      (tool_gateway env (reasoning_engine env.reasoning_outcome (initState input))) =
      "memory") :
    runTurn env input m =
      (tool_gateway env (reasoning_engine env.reasoning_outcome (initState input)),
       memory_processor env.now
         (tool_gateway env (reasoning_engine env.reasoning_outcome (initState input))) m,
       ["reasoning", "tools", "memory"]) := by
  simp [runTurn, h1, h2]

theorem runTurn_tools_to_recovery (env : Env) (input : String) (m : MemoryStore)
    (h1 : route_reasoning (reasoning_engine env.reasoning_outcome (initState input)) = "tools")
    (h2 : route_tools
      (tool_gateway env (reasoning_engine env.reasoning_outcome (initState input))) =
      "recovery") :
    runTurn env input m =
      (recovery_engine env
         (tool_gateway env (reasoning_engine env.reasoning_outcome (initState input))),
       memory_processor env.now
         (recovery_engine env
           (tool_gateway env (reasoning_engine env.reasoning_outcome (initState input)))) m,
       ["reasoning", "tools", "recovery", "memory"]) := by
  simp [runTurn, h1, h2]

theorem runTurn_context (env : Env) (input : String) (m : MemoryStore)
    (h : route_reasoning (reasoning_engine env.reasoning_outcome (initState input)) =
      "context_loader") :
    runTurn env input m =
      (chat_responder env
         (context_loader m (reasoning_engine env.reasoning_outcome (initState input))),
       memory_processor env.now
         (chat_responder env
           (context_loader m (reasoning_engine env.reasoning_outcome (initState input)))) m,
       ["reasoning", "context_loader", "chat_responder", "memory"]) := by
  simp [runTurn, h]

theorem runTurn_direct (env : Env) (input : String) (m : MemoryStore)
    (h : route_reasoning (reasoning_engine env.reasoning_outcome (initState input)) =
      "memory") :
    runTurn env input m =
      (reasoning_engine env.reasoning_outcome (initState input),
       memory_processor env.now (reasoning_engine env.reasoning_outcome (initState input)) m,
       ["reasoning", "memory"]) := by
  simp [runTurn, h]

theorem tool_gateway_fields (env : Env) (s : AgentState) :
    (tool_gateway env s).intent = s.intent ∧
    (tool_gateway env s).recovery_attempt = s.recovery_attempt ∧
    (tool_gateway env s).tool_command = s.tool_command := by
  obtain ⟨it, inten, ju, co, tc, nm, fr, ra, md, mc, tr, fr2⟩ := s
  cases tc with
  | none => exact ⟨rfl, rfl, rfl⟩
  | some cmd =>
    by_cases h1 : cmd.name = some "list_apps"
    · simp [tool_gateway, h1]
    · by_cases h2 : cmd.name = some "list_files"
      · cases hld : env.listdir with
        | ok l => simp [tool_gateway, h1, h2, hld]
        | error e => simp [tool_gateway, h1, h2, hld]
      · simp [tool_gateway, h1, h2]

theorem memory_processor_episodic_tool (now : Timestamp) (s : AgentState) (m : MemoryStore)
    (h : s.intent = some "tool") :
    (memory_processor now s m).episodic = m.episodic ++
      [⟨now, "tool", cmdName s.tool_command, cmdArgs s.tool_command,
        if truthyStr s.failure_reason then "failure" else "success",
        pyTake 200 (pyOrStr s.failure_reason (pyOrStr s.tool_result "No result"))⟩] := by
  simp only [memory_processor, h, log_episodic]
  simp [apply_ite (f := MemoryStore.episodic)]

theorem pyTake_length_le (n : Nat) (s : String) : (pyTake n s).length ≤ n := by
  show (s.data.take n).length ≤ n
  simp [List.length_take]

/-! ## Claim theorems -/

/-- C8: update_profile deduplicates case-insensitively with capped
strength. Conjunct 1: the concrete scenario — adding the fact twice with
different casing yields exactly one stored fact for that text with
strength 2. Conjunct 2: a fact matching no stored fact (case-insensitive)
is appended with strength 1. Conjunct 3: the first stored fact matching
case-insensitively has last_used refreshed and strength incremented with
cap 5, everything else untouched. -/
theorem arc_update_profile_dedup :
    (∀ t1 t2 : Timestamp,
      update_profile t2 ["likes coffee"] (update_profile t1 ["Likes coffee"] []) =
        [⟨"Likes coffee", t2, 2⟩]) ∧
    (∀ (now : Timestamp) (nf : String) (facts : List Fact),
      (∀ g ∈ facts, ¬ pyLower g.text = pyLower nf) →
      insertFact now nf facts = facts ++ [⟨nf, now, 1⟩]) ∧
    (∀ (now : Timestamp) (nf : String) (pre : List Fact) (g : Fact) (post : List Fact),
      (∀ h ∈ pre, ¬ pyLower h.text = pyLower nf) →
      pyLower g.text = pyLower nf →
      insertFact now nf (pre ++ g :: post) =
        pre ++ ⟨g.text, now, min (g.strength + 1) 5⟩ :: post) := by
  refine ⟨?_, ?_, ?_⟩
  · intro t1 t2
    have hlow : pyLower "Likes coffee" = pyLower "likes coffee" := by decide
    simp [update_profile, insertFact, apply_decay, days_inactive, hlow, Nat.sub_self]
  · intro now nf facts h
    induction facts with
    | nil => rfl
    | cons g rest ih =>
      unfold insertFact
      rw [if_neg (h g (List.mem_cons_self _ _))]
      rw [ih (fun x hx => h x (List.mem_cons_of_mem _ hx))]
      simp
  · intro now nf pre g post hpre hg
    induction pre with
    | nil =>
      simp only [List.nil_append]
      unfold insertFact
      rw [if_pos hg]
    | cons h' rest ih =>
      simp only [List.cons_append]
      unfold insertFact
      rw [if_neg (hpre h' (List.mem_cons_self _ _))]
      rw [ih (fun x hx => hpre x (List.mem_cons_of_mem _ hx))]

/-- Witness for C8: conjunct 1 at times 3 and 7, conjunct 2 appending to a
non-matching store, conjunct 3 strengthening a capped match. -/
theorem arc_update_profile_dedup_witness :
    update_profile 7 ["likes coffee"] (update_profile 3 ["Likes coffee"] []) =
      [⟨"Likes coffee", 7, 2⟩] ∧
    insertFact 5 "coffee" [⟨"tea", 0, 1⟩] = [⟨"tea", 0, 1⟩] ++ [⟨"coffee", 5, 1⟩] ∧
    insertFact 5 "LIKES TEA" ([⟨"coffee", 0, 4⟩] ++ ⟨"likes tea", 1, 4⟩ :: []) =
      [⟨"coffee", 0, 4⟩] ++ ⟨"likes tea", 5, min (4 + 1) 5⟩ :: [] :=
  ⟨arc_update_profile_dedup.1 3 7,
   arc_update_profile_dedup.2.1 5 "coffee" [⟨"tea", 0, 1⟩] (by decide),
   arc_update_profile_dedup.2.2 5 "LIKES TEA" [⟨"coffee", 0, 4⟩] ⟨"likes tea", 1, 4⟩ []
     (by decide) (by decide)⟩

/-- C9 counterexample: a fact last used 30.5 days (2635200 seconds) ago is
more than 30 days old, yet the next update_profile call keeps it, because
the source tests (now - last_used).days > 30 and the floored day count is
30. The claim as stated (any fact more than 30 days old is removed) is
therefore false. -/
theorem arc_decay_counterexample :
    30 * secondsPerDay < 2635200 - oldFact.last_used ∧
    oldFact ∈ update_profile 2635200 ["likes tea"] [oldFact] := by decide

/-- C9 amended: a stored fact matching none of the added facts
(case-insensitively) survives the next update_profile call iff the floored
whole-day count since its last_used is at most 30; equivalently it is
removed iff at least 31 full days have elapsed. Facts used within the last
30 days are always retained; a fact 31 full days old is removed. -/
theorem arc_decay_amended (now : Timestamp) (new_facts : List String)
    (facts : List Fact) (f : Fact)
    (hne : new_facts ≠ [])
    (hnomatch : ∀ nf ∈ new_facts, ¬ pyLower nf = pyLower f.text)
    (hmem : f ∈ facts) :
    f ∈ update_profile now new_facts facts ↔ days_inactive now f.last_used ≤ 30 := by
  unfold update_profile
  rw [if_neg (by simpa using hne)]
  unfold apply_decay
  rw [List.mem_filter]
  constructor
  · rintro ⟨-, hp⟩
    simpa [Nat.not_lt] using hp
  · intro h
    refine ⟨foldl_insertFact_mem now f new_facts facts hmem hnomatch, ?_⟩
    simpa [Nat.not_lt] using h

/-- Witness for C9 amended: a fact exactly 31 full days old is removed by
an unrelated update. -/
theorem arc_decay_amended_witness :
    (["likes tea"] : List String) ≠ [] ∧
    (∀ nf ∈ (["likes tea"] : List String), ¬ pyLower nf = pyLower oldFact.text) ∧
    oldFact ∈ [oldFact] ∧
    (oldFact ∈ update_profile (31 * secondsPerDay) ["likes tea"] [oldFact] ↔
      days_inactive (31 * secondsPerDay) oldFact.last_used ≤ 30) :=
  ⟨by decide, by decide, by decide,
   arc_decay_amended (31 * secondsPerDay) ["likes tea"] [oldFact] oldFact
     (by decide) (by decide) (by decide)⟩

/-- C10 counterexample: with one stored entry, get_recent_episodic with
limit 0 returns the whole list instead of the most recent 0 entries,
because Python data[-0:] is data[0:]. -/
theorem arc_recent_episodic_counterexample :
    get_recent_episodic [entryW] 0 = [entryW] ∧
    [entryW] ≠ ([] : List EpisodicEntry) := by decide

/-- C10 amended: for every positive limit, get_recent_episodic returns the
suffix of the most recent limit entries (all of them when fewer exist) in
insertion order; for limit = 0 it returns all entries, a Python negative
slice artifact. The read never modifies the store (the function is a pure
read of the list). -/
theorem arc_recent_episodic_amended :
    (∀ (data : List EpisodicEntry) (limit : Nat), 1 ≤ limit →
      get_recent_episodic data limit = data.drop (data.length - limit)) ∧
    (∀ data : List EpisodicEntry, get_recent_episodic data 0 = data) := by
  constructor
  · intro data limit h
    cases data with
    | nil => simp [get_recent_episodic]
    | cons a l =>
      unfold get_recent_episodic pySliceLast
      rw [if_neg (by simp), if_neg (by omega)]
  · intro data
    cases data with
    | nil => simp [get_recent_episodic]
    | cons a l =>
      unfold get_recent_episodic pySliceLast
      rw [if_neg (by simp), if_pos rfl]

/-- Witness for C10 amended: limit 2 over three entries returns the last
two in order. -/
theorem arc_recent_episodic_amended_witness :
    1 ≤ 2 ∧
    get_recent_episodic [entryW, ⟨1, "tool", "b", [], "failure", "x"⟩,
        ⟨2, "tool", "c", [], "success", "y"⟩] 2 =
      ([entryW, ⟨1, "tool", "b", [], "failure", "x"⟩,
        ⟨2, "tool", "c", [], "success", "y"⟩] : List EpisodicEntry).drop
        ([entryW, ⟨1, "tool", "b", [], "failure", "x"⟩,
          ⟨2, "tool", "c", [], "success", "y"⟩].length - 2) :=
  ⟨by decide,
   arc_recent_episodic_amended.1
     [entryW, ⟨1, "tool", "b", [], "failure", "x"⟩, ⟨2, "tool", "c", [], "success", "y"⟩]
     2 (by decide)⟩

/-- C4 counterexample: a successfully parsed decision that omits the
confidence field (dict.get then defaults it to 0.0) makes the reasoning
node return confidence exactly 0 with no failure_reason — so the error
path is not the sole way confidence can be exactly 0. -/
theorem arc_confidence_zero_counterexample :
    (reasoning_engine (.ok dEmpty) (initState "hi")).confidence = some 0 ∧
    (reasoning_engine (.ok dEmpty) (initState "hi")).failure_reason = none := by decide

/-- C4 amended: the error path always yields confidence exactly 0 with
failure_reason set; a successful parse yields failure_reason unset, and
its confidence is exactly 0 iff the parsed decision's confidence field is
0.0 or absent (the dict.get default). -/
theorem arc_confidence_zero_amended :
    (∀ (e input : String),
      (reasoning_engine (.error e) (initState input)).confidence = some 0 ∧
      (reasoning_engine (.error e) (initState input)).failure_reason =
        some ("Reasoning Engine crashed: " ++ e)) ∧
    (∀ (d : Decision) (input : String),
      (reasoning_engine (.ok d) (initState input)).failure_reason = none ∧
      ((reasoning_engine (.ok d) (initState input)).confidence = some 0 ↔
        d.confidence.getD 0 = 0)) := by
  constructor
  · intro e input
    exact ⟨rfl, rfl⟩
  · intro d input
    refine ⟨rfl, ?_⟩
    simp [reasoning_engine]

/-- Witness for C4 amended, at a backend error and at the all-absent
parsed decision. -/
theorem arc_confidence_zero_amended_witness :
    ((reasoning_engine (.error "down") (initState "hi")).confidence = some 0 ∧
     (reasoning_engine (.error "down") (initState "hi")).failure_reason =
       some ("Reasoning Engine crashed: " ++ "down")) ∧
    ((reasoning_engine (.ok dEmpty) (initState "hi")).failure_reason = none ∧
     ((reasoning_engine (.ok dEmpty) (initState "hi")).confidence = some 0 ↔
       dEmpty.confidence.getD 0 = 0)) :=
  ⟨arc_confidence_zero_amended.1 "down" "hi", arc_confidence_zero_amended.2 dEmpty "hi"⟩

/-- C5: on any reasoning error, the node returns exactly the partial
update intent=unknown, confidence=0.0, failure_reason="Reasoning Engine
crashed: detail" over the incoming state — every other field is left
untouched, and the node (a pure function here, as in the source except
for logging) performs no side effect. -/
theorem arc_reasoning_error_partial (e : String) (s : AgentState) :
    reasoning_engine (.error e) s =
      { s with
        intent := some "unknown",
        confidence := some 0,
        failure_reason := some ("Reasoning Engine crashed: " ++ e) } := rfl

/-- C3: every filesystem operation whose resolved path is outside all
allowed roots returns status "error" (access denied), leaves the
filesystem untouched and performs no file I/O; concretely,
read_file("../../etc/passwd") against an allow-list rooted at the working
directory /home/arc is denied without attempting the read, even though
/etc/passwd exists. -/
theorem arc_fs_denied_no_io :
    (∀ (m : FilesystemMCP) (fs : FS) (p : RawPath) (content : String),
      validate_path m p = none →
      (list_directory m fs p).1.status = "error" ∧ (list_directory m fs p).2 = (fs, []) ∧
      (read_file m fs p).1.status = "error" ∧ (read_file m fs p).2 = (fs, []) ∧
      (write_file m fs p content).1.status = "error" ∧
        (write_file m fs p content).2 = (fs, []) ∧
      (create_file m fs p).1.status = "error" ∧ (create_file m fs p).2 = (fs, []) ∧
      (delete_file m fs p).1.status = "error" ∧ (delete_file m fs p).2 = (fs, [])) ∧
    (validate_path mcpW etcPasswd = none ∧
      (read_file mcpW fsW etcPasswd).1.status = "error" ∧
      (read_file mcpW fsW etcPasswd).2 = (fsW, [])) := by
  constructor
  · intro m fs p content h
    refine ⟨?_, ?_, ?_, ?_, ?_, ?_, ?_, ?_, ?_, ?_⟩ <;>
      simp [list_directory, read_file, write_file, create_file, delete_file, h]
  · refine ⟨by decide, by decide, by decide⟩

/-- Witness for C3 at the ../../etc/passwd scenario, through the general
conjunct. -/
theorem arc_fs_denied_no_io_witness :
    validate_path mcpW etcPasswd = none ∧
    ((list_directory mcpW fsW etcPasswd).1.status = "error" ∧
     (list_directory mcpW fsW etcPasswd).2 = (fsW, []) ∧
     (read_file mcpW fsW etcPasswd).1.status = "error" ∧
     (read_file mcpW fsW etcPasswd).2 = (fsW, []) ∧
     (write_file mcpW fsW etcPasswd "x").1.status = "error" ∧
     (write_file mcpW fsW etcPasswd "x").2 = (fsW, []) ∧
     (create_file mcpW fsW etcPasswd).1.status = "error" ∧
     (create_file mcpW fsW etcPasswd).2 = (fsW, []) ∧
     (delete_file mcpW fsW etcPasswd).1.status = "error" ∧
     (delete_file mcpW fsW etcPasswd).2 = (fsW, [])) :=
  ⟨by decide, arc_fs_denied_no_io.1 mcpW fsW etcPasswd "x" (by decide)⟩

/-- C1: whenever the Turn State after the reasoning node has
confidence < 0.5, the orchestrator routes to recovery and the tool
gateway node never executes in that turn, whatever the classified
intent (the witness uses intent = tool). -/
theorem arc_low_confidence_recovery (env : Env) (input : String) (m : MemoryStore)
    (h : (reasoning_engine env.reasoning_outcome (initState input)).confidence.getD 0 <
      confidenceThreshold) :
    route_reasoning (reasoning_engine env.reasoning_outcome (initState input)) =
      "recovery" ∧
    "tools" ∉ (runTurn env input m).2.2 := by
  have hr : route_reasoning (reasoning_engine env.reasoning_outcome (initState input)) =
      "recovery" := by
    unfold route_reasoning
    rw [if_pos h]
  refine ⟨hr, ?_⟩
  rw [runTurn_recovery env input m hr]
  simp

/-- Witness for C1: intent = tool with confidence 0.3 still routes to
recovery and never reaches the tool gateway. -/
theorem arc_low_confidence_recovery_witness :
    ((reasoning_engine envLowTool.reasoning_outcome (initState "open app")).confidence.getD 0 <
      confidenceThreshold) ∧
    (route_reasoning (reasoning_engine envLowTool.reasoning_outcome (initState "open app")) =
      "recovery" ∧
     "tools" ∉ (runTurn envLowTool "open app" emptyStore).2.2) :=
  ⟨by decide, arc_low_confidence_recovery envLowTool "open app" emptyStore (by decide)⟩

/-- C2 counterexample: after a reasoning-backend crash the turn routes
through recovery, which sets final_response but never clears
failure_reason, so the state reaching the memory node has BOTH fields
set — the exactly-one invariant of the claim is false. -/
theorem arc_memory_invariant_counterexample :
    (runTurn envCrash "hello" emptyStore).1.failure_reason.isSome = true ∧
    (runTurn envCrash "hello" emptyStore).1.final_response.isSome = true := by decide

/-- C2 amended: when the Turn State reaches the memory node, a truthy
failure_reason implies the recovery node ran and final_response is set as
well (so the two fields can hold simultaneously, and exactly-one fails);
final_response is set whenever recovery ran; and recovery_attempt is true
iff the recovery node ran during the turn. -/
theorem arc_memory_invariant_amended (env : Env) (input : String) (m : MemoryStore) :
    ((runTurn env input m).1.recovery_attempt = some true ↔
      "recovery" ∈ (runTurn env input m).2.2) ∧
    ("recovery" ∈ (runTurn env input m).2.2 →
      (runTurn env input m).1.final_response.isSome = true) ∧
    (truthyStr (runTurn env input m).1.failure_reason = true →
      "recovery" ∈ (runTurn env input m).2.2 ∧
      (runTurn env input m).1.final_response.isSome = true) := by
  cases hout : env.reasoning_outcome with
  | error e =>
    have hr : route_reasoning (reasoning_engine env.reasoning_outcome (initState input)) =
        "recovery" := by
      rw [hout]
      exact route_reasoning_error e _
    rw [runTurn_recovery env input m hr]
    simp [recovery_engine]
  | ok d =>
    by_cases hc : d.confidence.getD 0 < confidenceThreshold
    · have hr : route_reasoning (reasoning_engine env.reasoning_outcome (initState input)) =
          "recovery" := by
        rw [hout, route_reasoning_ok, if_pos hc]
      rw [runTurn_recovery env input m hr]
      simp [recovery_engine]
    · by_cases hi : d.intent.getD "unknown" = "tool"
      · have hr : route_reasoning (reasoning_engine env.reasoning_outcome (initState input)) =
            "tools" := by
          rw [hout, route_reasoning_ok, if_neg hc, if_pos hi]
        by_cases hf : truthyStr
            (tool_gateway env
              (reasoning_engine env.reasoning_outcome (initState input))).failure_reason = true
        · have h2 : route_tools
              (tool_gateway env (reasoning_engine env.reasoning_outcome (initState input))) =
              "recovery" := by
            unfold route_tools
            rw [if_pos hf]
          rw [runTurn_tools_to_recovery env input m hr h2]
          simp [recovery_engine]
        · have h2 : route_tools
              (tool_gateway env (reasoning_engine env.reasoning_outcome (initState input))) =
              "memory" := by
            unfold route_tools
            rw [if_neg hf]
          rw [runTurn_tools_to_memory env input m hr h2]
          refine ⟨?_, ?_, ?_⟩
          · rw [(tool_gateway_fields env _).2.1, hout]
            simp [reasoning_engine]
          · intro hmem
            simp at hmem
          · intro htr
            exact absurd htr hf
      · by_cases hm : d.needs_memory.getD false
        · have hr : route_reasoning
              (reasoning_engine env.reasoning_outcome (initState input)) =
              "context_loader" := by
            rw [hout, route_reasoning_ok, if_neg hc, if_neg hi, if_pos hm]
          rw [runTurn_context env input m hr]
          refine ⟨?_, ?_, ?_⟩
          · rw [hout]
            simp [chat_responder, context_loader, reasoning_engine]
          · intro hmem
            simp at hmem
          · rw [hout]
            intro htr
            simp [chat_responder, context_loader, reasoning_engine, truthyStr] at htr
        · have hr : route_reasoning
              (reasoning_engine env.reasoning_outcome (initState input)) = "memory" := by
            rw [hout, route_reasoning_ok, if_neg hc, if_neg hi, if_neg hm]
          rw [runTurn_direct env input m hr]
          refine ⟨?_, ?_, ?_⟩
          · rw [hout]
            simp [reasoning_engine]
          · intro hmem
            simp at hmem
          · rw [hout]
            intro htr
            simp [reasoning_engine, truthyStr] at htr

/-- Witness for C2 amended at the crash environment: recovery ran,
recovery_attempt is true, final_response is set, and the truthy
failure_reason indeed coexists with it. -/
theorem arc_memory_invariant_amended_witness :
    ((runTurn envCrash "hello again" emptyStore).1.recovery_attempt = some true ↔
      "recovery" ∈ (runTurn envCrash "hello again" emptyStore).2.2) ∧
    ("recovery" ∈ (runTurn envCrash "hello again" emptyStore).2.2 →
      (runTurn envCrash "hello again" emptyStore).1.final_response.isSome = true) ∧
    (truthyStr (runTurn envCrash "hello again" emptyStore).1.failure_reason = true →
      "recovery" ∈ (runTurn envCrash "hello again" emptyStore).2.2 ∧
      (runTurn envCrash "hello again" emptyStore).1.final_response.isSome = true) :=
  arc_memory_invariant_amended envCrash "hello again" emptyStore

/-- C6: in a turn whose parsed decision has intent = tool and confidence
at least 0.5, if the tool gateway succeeds (failure_reason not truthy,
the test the source itself uses for routing and outcome) the turn goes
straight to memory and appends exactly one episodic entry with
outcome = success and a result_summary of at most 200 characters; if the
gateway fails, the turn routes through recovery and the single appended
entry has outcome = failure. Nothing else is added to or removed from
the episodic log either way. -/
theorem arc_tool_turn_episodic (env : Env) (input : String) (m : MemoryStore) (d : Decision)
    (hok : env.reasoning_outcome = .ok d)
    (hconf : ¬ d.confidence.getD 0 < confidenceThreshold)
    (hint : d.intent = some "tool") :
    (truthyStr (tool_gateway env
        (reasoning_engine env.reasoning_outcome (initState input))).failure_reason = false →
      (runTurn env input m).2.2 = ["reasoning", "tools", "memory"] ∧
      ∃ entry : EpisodicEntry,
        (runTurn env input m).2.1.episodic = m.episodic ++ [entry] ∧
        entry.intent = "tool" ∧ entry.outcome = "success" ∧
        entry.result_summary.length ≤ 200) ∧
    (truthyStr (tool_gateway env
        (reasoning_engine env.reasoning_outcome (initState input))).failure_reason = true →
      (runTurn env input m).2.2 = ["reasoning", "tools", "recovery", "memory"] ∧
      ∃ entry : EpisodicEntry,
        (runTurn env input m).2.1.episodic = m.episodic ++ [entry] ∧
        entry.intent = "tool" ∧ entry.outcome = "failure" ∧
        entry.result_summary.length ≤ 200) := by
  have hr : route_reasoning (reasoning_engine env.reasoning_outcome (initState input)) =
      "tools" := by
    rw [hok, route_reasoning_ok, if_neg hconf, if_pos (by simp [hint])]
  have hintent : (tool_gateway env
      (reasoning_engine env.reasoning_outcome (initState input))).intent = some "tool" := by
    rw [(tool_gateway_fields env _).1, hok]
    simp [reasoning_engine, hint]
  constructor
  · intro hf
    have h2 : route_tools
        (tool_gateway env (reasoning_engine env.reasoning_outcome (initState input))) =
        "memory" := by
      unfold route_tools
      rw [if_neg (by simp [hf])]
    rw [runTurn_tools_to_memory env input m hr h2]
    refine ⟨rfl, _, memory_processor_episodic_tool env.now _ m hintent, rfl, ?_, ?_⟩
    · simp [hf]
    · exact pyTake_length_le 200 _
  · intro hf
    have h2 : route_tools
        (tool_gateway env (reasoning_engine env.reasoning_outcome (initState input))) =
        "recovery" := by
      unfold route_tools
      rw [if_pos hf]
    rw [runTurn_tools_to_recovery env input m hr h2]
    have hintent3 : (recovery_engine env (tool_gateway env
        (reasoning_engine env.reasoning_outcome (initState input)))).intent = some "tool" := by
      simpa [recovery_engine] using hintent
    refine ⟨rfl, _, memory_processor_episodic_tool env.now _ m hintent3, rfl, ?_, ?_⟩
    · simp [recovery_engine, hf]
    · exact pyTake_length_le 200 _

/-- Witness for C6, success side: a confident list_apps turn appends one
success entry and skips recovery. -/
theorem arc_tool_turn_episodic_witness :
    (¬ dOkTool.confidence.getD 0 < confidenceThreshold) ∧
    ((runTurn envOkTool "list apps" emptyStore).2.2 = ["reasoning", "tools", "memory"] ∧
     ∃ entry : EpisodicEntry,
       (runTurn envOkTool "list apps" emptyStore).2.1.episodic =
         emptyStore.episodic ++ [entry] ∧
       entry.intent = "tool" ∧ entry.outcome = "success" ∧
       entry.result_summary.length ≤ 200) :=
  ⟨by decide,
   (arc_tool_turn_episodic envOkTool "list apps" emptyStore dOkTool rfl (by decide) rfl).1
     (by decide)⟩

/-- C7: with intent = tool but confidence below 0.5 the turn routes to
recovery and the tool never runs, yet because failure_reason stays unset
the memory node still appends one episodic entry with outcome = success
and result_summary "No result" — a ghost success for a tool that was
never dispatched. -/
theorem arc_ghost_success_entry (env : Env) (input : String) (m : MemoryStore) (d : Decision)
    (hok : env.reasoning_outcome = .ok d)
    (hconf : d.confidence.getD 0 < confidenceThreshold)
    (hint : d.intent = some "tool") :
    (runTurn env input m).2.2 = ["reasoning", "recovery", "memory"] ∧
    "tools" ∉ (runTurn env input m).2.2 ∧
    (runTurn env input m).2.1.episodic = m.episodic ++
      [⟨env.now, "tool", cmdName d.tool_command, cmdArgs d.tool_command,
        "success", "No result"⟩] := by
  have hr : route_reasoning (reasoning_engine env.reasoning_outcome (initState input)) =
      "recovery" := by
    rw [hok, route_reasoning_ok, if_pos hconf]
  rw [runTurn_recovery env input m hr]
  have hintent : (recovery_engine env
      (reasoning_engine env.reasoning_outcome (initState input))).intent = some "tool" := by
    rw [hok]
    simp [recovery_engine, reasoning_engine, hint]
  refine ⟨rfl, by simp, ?_⟩
  rw [memory_processor_episodic_tool env.now _ m hintent]
  have hNo : pyTake 200 "No result" = "No result" := by decide
  rw [hok]
  simp [recovery_engine, reasoning_engine, initState, truthyStr, pyOrStr, hNo]

/-- Witness for C7: the low-confidence tool turn of envLowTool logs a
success entry for list_apps although the tool gateway never ran. -/
theorem arc_ghost_success_entry_witness :
    dLowTool.confidence.getD 0 < confidenceThreshold ∧
    ((runTurn envLowTool "open the app" emptyStore).2.2 =
        ["reasoning", "recovery", "memory"] ∧
     "tools" ∉ (runTurn envLowTool "open the app" emptyStore).2.2 ∧
     (runTurn envLowTool "open the app" emptyStore).2.1.episodic = emptyStore.episodic ++
       [⟨envLowTool.now, "tool", cmdName dLowTool.tool_command, cmdArgs dLowTool.tool_command,
         "success", "No result"⟩]) :=
  ⟨by decide,
   arc_ghost_success_entry envLowTool "open the app" emptyStore dLowTool rfl (by decide) rfl⟩

end Arc
